import Mathlib

/-!
Verification of the DoorDash "Now on DoorDash" section extractor.

This file gives a shallow embedding, in Lean, of the core logic of the two
Python modules `Now_on_doordash.py` and `doordash_guest_flow.py`:

* the document model (parsed JSON trees: nested mappings/sequences with
  primitive leaves),
* the recursive section-token search `find_now_on_doordash_cursor`
  (inner function `search_for_now_on_doordash`),
* the record extraction engine `extract_stores_from_feed`
  (inner function `extract_store_info`) with its name-based dedup,
* the per-step response handling of the two session flows and the
  flow driver `run_optimized_flow`,
* the default fallback cursor and its JSON + base64 encoding/decoding.

Python runtime behaviour that matters here is modelled explicitly:
exceptions raised by attribute/subscript access on mis-shaped values are
`Except.error`, and Python truthiness of strings/containers is spelled out.
-/

/-! ## The document model

A parsed JSON document: nested mappings (string keys, insertion order
preserved, as in Python dicts) and sequences, with primitive leaves.
A mutual inductive keeps structural recursion and induction simple. -/

mutual

inductive Json where
  | str (s : String)
  | num (n : Int)
  | bool (b : Bool)
  | null
  | arr (elems : JsonList)
  | obj (fields : JsonObj)

inductive JsonList where
  | nil
  | cons (hd : Json) (tl : JsonList)

inductive JsonObj where
  | nil
  | cons (key : String) (val : Json) (tl : JsonObj)

end

/-- Build a `JsonList` from a Lean list (convenience for concrete documents). -/
def jlist : List Json → JsonList
  | [] => .nil
  | j :: js => .cons j (jlist js)

/-- Build a `JsonObj` from a Lean association list (concrete documents). -/
def jfields : List (String × Json) → JsonObj
  | [] => .nil
  | (k, v) :: r => .cons k v (jfields r)

/-- A JSON sequence from a Lean list. -/
def jarr (xs : List Json) : Json := .arr (jlist xs)

/-- A JSON mapping from a Lean association list. -/
def jobj (kvs : List (String × Json)) : Json := .obj (jfields kvs)

/-- Key lookup in a mapping (Python dict access; first matching key). -/
def objLookup (key : String) : JsonObj → Option Json
  | .nil => none
  | .cons k v tl => if k == key then some v else objLookup key tl

/-- Does a sequence contain the given string as an element?
(Python `key in list` with string `key`: equality against each element,
true only for equal string elements.) -/
def listHasStr (key : String) : JsonList → Bool
  | .nil => false
  | .cons (.str s) tl => s == key || listHasStr key tl
  | .cons _ tl => listHasStr key tl

/-! String primitives are re-implemented structurally over `List Char` so
that all embedded functions evaluate by definitional reduction. Each one
mirrors the corresponding Python `str` method on code points. -/

/-- Is `pat` an initial segment of `s` (both as char lists)? -/
def charsStart : List Char → List Char → Bool
  | [], _ => true
  | _ :: _, [] => false
  | p :: ps, c :: cs => p == c && charsStart ps cs

/-- Does `pat` occur inside `s`? (Python `pat in s` on strings.) -/
def charsContain (s pat : List Char) : Bool :=
  charsStart pat s ||
    match s with
    | [] => false
    | _ :: tl => charsContain tl pat

/-- Substring containment, Python `pat in s` on strings. -/
def strContainsSub (s pat : String) : Bool := charsContain s.data pat.data

/-- Python `s.startswith(pat)`. -/
def strStarts (s pat : String) : Bool := charsStart pat.data s.data

/-- Python `s.endswith(pat)`. -/
def strEnds (s pat : String) : Bool := charsStart pat.data.reverse s.data.reverse

/-- Python `s[n:]` (drop the first `n` code points). -/
def strDrop (s : String) (n : Nat) : String := ⟨s.data.drop n⟩

/-- Python whitespace as recognised by `str.strip()`. -/
def pySpace (c : Char) : Bool :=
  c == ' ' || c == '\t' || c == '\n' || c == '\r' || c == '\x0b' || c == '\x0c'

/-- Python `s.strip()`. -/
def strTrim (s : String) : String :=
  ⟨((s.data.dropWhile pySpace).reverse.dropWhile pySpace).reverse⟩

/-- Python `str.lower()` (character-wise lowercasing). -/
def strLower (s : String) : String := ⟨s.data.map Char.toLower⟩

/-- `isinstance(v, (dict, list))`. -/
def isContainer : Json → Bool
  | .obj _ => true
  | .arr _ => true
  | _ => false

/-- Python truthiness of a value bound from JSON. -/
def truthyJson : Json → Bool
  | .null => false
  | .bool b => b
  | .num n => !(n == 0)
  | .str s => !(s == "")
  | .arr .nil => false
  | .arr _ => true
  | .obj .nil => false
  | .obj _ => true

/-- Truthiness of an optional string (`if result:` over `None`-or-`str`). -/
def truthyOptStr : Option String → Bool
  | none => false
  | some s => !(s == "")

/-! ## Python accessor semantics

Each accessor returns `Except Unit _`; `.error ()` models a raised
exception (TypeError / AttributeError / KeyError). -/

/-- Python `.strip()` on a value: only strings have it. -/
def pyStrip : Json → Except Unit String
  | .str s => .ok (strTrim s)
  | _ => .error ()

/-- Python `key in v` for string `key`: key test on dicts, element test on
lists, substring test on strings; raises on other values. -/
def pyInStr (key : String) : Json → Except Unit Bool
  | .obj kvs => .ok (objLookup key kvs).isSome
  | .arr xs => .ok (listHasStr key xs)
  | .str s => .ok (strContainsSub s key)
  | _ => .error ()

/-- Python `v[key]` for string `key`: dict lookup (KeyError when absent);
raises TypeError on any non-dict. -/
def pySubscript (key : String) : Json → Except Unit Json
  | .obj kvs =>
    match objLookup key kvs with
    | some v => .ok v
    | none => .error ()
  | _ => .error ()

/-- Python `v.get(key, dflt)`: only dicts have `.get`. -/
def pyGet (key : String) (dflt : Json) : Json → Except Unit Json
  | .obj kvs => .ok ((objLookup key kvs).getD dflt)
  | _ => .error ()

/-! ## Tree search: `find_now_on_doordash_cursor` (`Now_on_doordash.py` 463-512)

The inner recursive function `search_for_now_on_doordash` checks each
mapping node for a matching `text.title`, then digs for
`events.click.data.uri`, strips the `facet_feed/` head and an optional
trailing slash, returning the cursor immediately; otherwise it recurses
into mapping values that are dicts or lists, and into all sequence
elements, propagating the first truthy result. -/

/-- Drop a trailing slash (`cursor[:-1]` guarded by `endswith('/')`). -/
def stripSlash (c : String) : String := if strEnds c "/" then ⟨c.data.dropLast⟩ else c

/-- The `events`-value part of the match: `'click' in item['events']`,
`item['events']['click'].get('data', {})`, `'uri' in click_data`,
`click_data['uri']`, `uri.startswith('facet_feed/')`, strip. -/
def clickUriCursor (ev : Json) : Except Unit (Option String) :=
  match pyInStr "click" ev with
  | .error e => .error e
  | .ok false => .ok none
  | .ok true =>
    match pySubscript "click" ev with
    | .error e => .error e
    | .ok click =>
      match pyGet "data" (.obj .nil) click with
      | .error e => .error e
      | .ok clickData =>
        match pyInStr "uri" clickData with
        | .error e => .error e
        | .ok false => .ok none
        | .ok true =>
          match pySubscript "uri" clickData with
          | .error e => .error e
          | .ok (.str uri) =>
            if strStarts uri "facet_feed/" then
              .ok (some (stripSlash (strDrop uri 11)))
            else .ok none
          | .ok _ => .error ()

/-- `'text' in item and isinstance(item['text'], dict)`, then
`title = item['text'].get('title', '').strip()` and
`title and 'now on doordash' in title.lower()`. -/
def titleMatches (kvs : JsonObj) : Except Unit Bool :=
  match objLookup "text" kvs with
  | some (.obj t) =>
    match pyStrip ((objLookup "title" t).getD (.str "")) with
    | .error e => .error e
    | .ok title => .ok (!(title == "") && strContainsSub (strLower title) "now on doordash")
  | _ => .ok false

/-- The whole per-node match of `search_for_now_on_doordash`: `some c`
means `return cursor` was reached (with `c` possibly empty), `none` means
fall through to the recursive walk. -/
def nodeCursor (kvs : JsonObj) : Except Unit (Option String) :=
  match titleMatches kvs with
  | .error e => .error e
  | .ok false => .ok none
  | .ok true =>
    match objLookup "events" kvs with
    | none => .ok none
    | some ev => clickUriCursor ev

mutual

/-- `search_for_now_on_doordash` (lines 467-504). -/
def search_for_now_on_doordash : Json → Except Unit (Option String)
  | .obj kvs =>
    match nodeCursor kvs with
    | .error e => .error e
    | .ok (some c) => .ok (some c)
    | .ok none => searchFields kvs
  | .arr xs => searchElems xs
  | .str _ => .ok none
  | .num _ => .ok none
  | .bool _ => .ok none
  | .null => .ok none

/-- The `for key, value in item.items()` loop: recurse into dict/list
values only; `if result: return result`. -/
def searchFields : JsonObj → Except Unit (Option String)
  | .nil => .ok none
  | .cons _ v tl =>
    if isContainer v then
      match search_for_now_on_doordash v with
      | .error e => .error e
      | .ok r => if truthyOptStr r then .ok r else searchFields tl
    else searchFields tl

/-- The `for i, sub_item in enumerate(item)` loop over sequence elements. -/
def searchElems : JsonList → Except Unit (Option String)
  | .nil => .ok none
  | .cons h tl =>
    match search_for_now_on_doordash h with
    | .error e => .error e
    | .ok r => if truthyOptStr r then .ok r else searchElems tl

end

/-- `find_now_on_doordash_cursor` (lines 463-512): run the search and map
a falsy result (`None` or `''`) to `None`. -/
def find_now_on_doordash_cursor (d : Json) : Except Unit (Option String) :=
  match search_for_now_on_doordash d with
  | .error e => .error e
  | .ok c => if truthyOptStr c then .ok c else .ok none

/-- Scenario A document from the spec. -/
def docScenarioA : Json :=
  jobj [("text", jobj [("title", .str "Now on DoorDash")]),
        ("events", jobj [("click", jobj [("data", jobj [("uri", .str "facet_feed/ABC123/")])])])]

/-- Scenario B document from the spec. -/
def docScenarioB : Json :=
  jobj [("a", jarr [jobj [("text", jobj [("title", .str "Unrelated")])],
                    jobj [("text", jobj [("title", .str "Now on doordash ")]),
                          ("events", jobj [("click", jobj [("data", jobj [("uri", .str "facet_feed/XYZ/")])])])]])]

example : find_now_on_doordash_cursor docScenarioA = .ok (some "ABC123") := by rfl

example : find_now_on_doordash_cursor docScenarioB = .ok (some "XYZ") := by rfl

example : find_now_on_doordash_cursor (jarr []) = .ok none := by rfl

/-! ## Spec-side characterisation of the search (§4.2, §8 of the spec)

The spec describes `findToken` as: return the token of the first mapping
node in depth-first document order whose trimmed `text.title` contains the
target phrase case-insensitively and whose `events.click.data.uri` starts
with the `facet_feed/` head, the token being that uri with the head and an
optional trailing slash stripped. The following definitions state that
reading, totally (mis-shaped fields simply fail the match). -/

mutual

/-- All mapping nodes of a document in depth-first preorder (a node first,
then its field values in insertion order, then for sequences the elements
in order). -/
def dfsNodes : Json → List JsonObj
  | .obj kvs => kvs :: dfsNodesFields kvs
  | .arr xs => dfsNodesElems xs
  | .str _ => []
  | .num _ => []
  | .bool _ => []
  | .null => []

def dfsNodesFields : JsonObj → List JsonObj
  | .nil => []
  | .cons _ v tl => dfsNodes v ++ dfsNodesFields tl

def dfsNodesElems : JsonList → List JsonObj
  | .nil => []
  | .cons h tl => dfsNodes h ++ dfsNodesElems tl

end

/-- Spec-side reading of the `events.click.data.uri` token: the chain of
mappings must be present with a string uri carrying the recognised
`facet_feed/` head; the token is the uri with the head and an optional
trailing slash stripped.  Mis-shaped fields simply yield no token. -/
def specClickToken : Json → Option String
  | .obj ev =>
    match objLookup "click" ev with
    | some (.obj click) =>
      match (objLookup "data" click).getD (.obj .nil) with
      | .obj clickData =>
        match objLookup "uri" clickData with
        | some (.str uri) =>
          if strStarts uri "facet_feed/" then some (stripSlash (strDrop uri 11))
          else none
        | _ => none
      | _ => none
    | _ => none
  | _ => none

/-- The spec's per-node match: a trimmed string `text.title` containing
the target phrase case-insensitively, plus a usable click token. -/
def specNodeToken (kvs : JsonObj) : Option String :=
  match objLookup "text" kvs with
  | some (.obj t) =>
    match (objLookup "title" t).getD (.str "") with
    | .str raw =>
      if !(strTrim raw == "") && strContainsSub (strLower (strTrim raw)) "now on doordash" then
        match objLookup "events" kvs with
        | some ev => specClickToken ev
        | none => none
      else none
    | _ => none
  | _ => none

/-- First token yielded by `specNodeToken` along a node list. -/
def firstTok : List JsonObj → Option String
  | [] => none
  | n :: ns =>
    match specNodeToken n with
    | some t => some t
    | none => firstTok ns

/-! ## Record extraction: `extract_stores_from_feed` (lines 515-572) -/

/-- A store record as assembled by `extract_store_info`. The `text` block
always sets both `name` and `subtitle`, and a record is only appended when
the name check passes, so those two are plain strings; the `custom` and
`events.click` blocks are each optional as a group (`none` = the block was
absent), with absent-or-null inner keys modelled as `Json.null`, exactly
as Python's `dict.get` produces `None`. -/
structure StoreRec where
  name : String
  subtitle : String
  rating : Option Json
  delivery_fee : Option Json
  delivery_time : Option Json
  store_id : Option Json
  uri : Option Json
  source : String
  path : String

/-- The `text` block: `item['text'].get('title', '').strip()` and the
same for `subtitle` (raises when either value is a non-string). -/
def textFields (kvs : JsonObj) : Except Unit (Option (String × String)) :=
  match objLookup "text" kvs with
  | some (.obj t) =>
    match pyStrip ((objLookup "title" t).getD (.str "")) with
    | .error e => .error e
    | .ok nm =>
      match pyStrip ((objLookup "subtitle" t).getD (.str "")) with
      | .error e => .error e
      | .ok sb => .ok (some (nm, sb))
  | _ => .ok none

/-- The `custom` block: `custom_data.get('rating')`, `.get('delivery_fee')`,
`.get('delivery_time')` (guarded by `isinstance(..., dict)`, never raises). -/
def customFields (kvs : JsonObj) : Option (Json × Json × Json) :=
  match objLookup "custom" kvs with
  | some (.obj c) =>
    some ((objLookup "rating" c).getD .null,
          (objLookup "delivery_fee" c).getD .null,
          (objLookup "delivery_time" c).getD .null)
  | _ => none

/-- The `events` block: `'events' in item and 'click' in item['events']`,
then `item['events']['click'].get('data', {})` and
`click_data.get('store_id')`, `click_data.get('uri')`. -/
def eventsFields (kvs : JsonObj) : Except Unit (Option (Json × Json)) :=
  match objLookup "events" kvs with
  | none => .ok none
  | some ev =>
    match pyInStr "click" ev with
    | .error e => .error e
    | .ok false => .ok none
    | .ok true =>
      match pySubscript "click" ev with
      | .error e => .error e
      | .ok click =>
        match pyGet "data" (.obj .nil) click with
        | .error e => .error e
        | .ok clickData =>
          match pyGet "store_id" .null clickData with
          | .error e => .error e
          | .ok sid =>
            match pyGet "uri" .null clickData with
            | .error e => .error e
            | .ok uri => .ok (some (sid, uri))

/-- One mapping node's contribution in `extract_store_info`: assemble
`store_info` and append it only when
`store_info.get('name') and len(store_info.get('name', '')) > 2`. -/
def extract_store_info_node (src path : String) (kvs : JsonObj) :
    Except Unit (Option StoreRec) :=
  match textFields kvs with
  | .error e => .error e
  | .ok txt =>
    match eventsFields kvs with
    | .error e => .error e
    | .ok evf =>
      match txt with
      | some (nm, sb) =>
        if ¬(nm = "") ∧ 2 < nm.length then
          .ok (some { name := nm, subtitle := sb,
                      rating := (customFields kvs).map (·.1),
                      delivery_fee := (customFields kvs).map (·.2.1),
                      delivery_time := (customFields kvs).map (·.2.2),
                      store_id := evf.map (·.1),
                      uri := evf.map (·.2),
                      source := src, path := path })
        else .ok none
      | none => .ok none

mutual

/-- `extract_store_info` (lines 521-558): depth-first collection of
candidate records, the current node's record (if any) before its
descendants'. An exception anywhere aborts the whole extraction. -/
def extract_store_info : String → String → Json → Except Unit (List StoreRec)
  | src, path, .obj kvs =>
    match extract_store_info_node src path kvs with
    | .error e => .error e
    | .ok r0 =>
      match collectFields src path kvs with
      | .error e => .error e
      | .ok rest =>
        .ok (match r0 with
             | some r => r :: rest
             | none => rest)
  | src, path, .arr xs => collectElems src path 0 xs
  | _, _, .str _ => .ok []
  | _, _, .num _ => .ok []
  | _, _, .bool _ => .ok []
  | _, _, .null => .ok []

/-- The `for key, value in item.items()` loop of `extract_store_info`
(recurse into dict/list values only, path extended with `.key`). -/
def collectFields : String → String → JsonObj → Except Unit (List StoreRec)
  | _, _, .nil => .ok []
  | src, path, .cons k v tl =>
    if isContainer v then
      match extract_store_info src (path ++ "." ++ k) v with
      | .error e => .error e
      | .ok l1 =>
        match collectFields src path tl with
        | .error e => .error e
        | .ok l2 => .ok (l1 ++ l2)
    else collectFields src path tl

/-- The `for i, sub_item in enumerate(item)` loop (path extended with
`[i]`). -/
def collectElems : String → String → Nat → JsonList → Except Unit (List StoreRec)
  | _, _, _, .nil => .ok []
  | src, path, i, .cons h tl =>
    match extract_store_info src (path ++ "[" ++ toString i ++ "]") h with
    | .error e => .error e
    | .ok l1 =>
      match collectElems src path (i + 1) tl with
      | .error e => .error e
      | .ok l2 => .ok (l1 ++ l2)

end

/-- The dedup loop of `extract_stores_from_feed` (lines 562-569):
`seen_names` is a set of lower-cased names; a store is kept when its
lower-cased name is non-empty and unseen. -/
def dedupAux : List String → List StoreRec → List StoreRec
  | _, [] => []
  | seen, r :: rs =>
    if ¬(strLower r.name = "") ∧ ¬(strLower r.name ∈ seen) then
      r :: dedupAux (strLower r.name :: seen) rs
    else dedupAux seen rs

/-- `extract_stores_from_feed` (lines 515-572): collect candidates in
depth-first order, then deduplicate by lower-cased name keeping first
occurrences. -/
def extract_stores_from_feed (d : Json) (src : String) : Except Unit (List StoreRec) :=
  match extract_store_info src "" d with
  | .error e => .error e
  | .ok stores => .ok (dedupAux [] stores)

/-- Spec-side dedup (§4.3): keep each candidate that is the first
occurrence of its lower-cased name, in traversal order. -/
def specFirstOcc (l : List StoreRec) : List StoreRec :=
  match l with
  | [] => []
  | r :: rs =>
    r :: specFirstOcc (rs.filter fun s => !(strLower s.name == strLower r.name))
termination_by l.length
decreasing_by
  simp only [List.length_cons]
  exact Nat.lt_succ_of_le (List.length_filter_le _ _)

/-- Scenario C document from the spec: two sibling nodes with case-variant
duplicate names. -/
def docScenarioC : Json :=
  jarr [jobj [("text", jobj [("title", .str "Pizza Place"), ("subtitle", .str "Great pizza")])],
        jobj [("text", jobj [("title", .str "Pizza place")])]]

example :
    (extract_stores_from_feed docScenarioC "feed").map (·.map (·.name)) =
      .ok ["Pizza Place"] := by rfl

example :
    (extract_store_info "feed" "" docScenarioC).map (·.map (·.name)) =
      .ok ["Pizza Place", "Pizza place"] := by rfl

/-! ## The session flows

Each step takes the server's response to the one HTTP request it makes
(`none` models a transport-level exception during the request, wire shape
excluded per §1), plus whatever session state it reads, and returns what
the Python method returns.  Request construction (headers, params,
tracing identifiers) carries no business logic and is not modelled. -/

/-- An HTTP response: status code and parsed JSON body. -/
structure HttpResp where
  status : Nat
  body : Json

namespace NowOnDoordash

/-- `step_1_health_check` (lines 80-89): 200 is healthy; on an exception
the method returns `True` ("Continue even if health check fails"). -/
def step_1_health_check : Option HttpResp → Bool
  | none => true
  | some r => r.status == 200

/-- The kind of failure a step reports; the source distinguishes these as
separate branches (with distinct console messages). -/
inductive StepFailKind where
  | malformedBody
  | badStatus
  | transportErr
deriving DecidableEq

/-- Outcome of guest creation: a credential, or a classified failure. -/
inductive Step2Out where
  | tokenOk (tok : Json)
  | fail (k : StepFailKind)

/-- `'auth_token' in data and 'token' in data['auth_token']`, then
`data['auth_token']['token']` (shared by both modules). -/
def nestedAuthToken (b : Json) : Except Unit (Option Json) :=
  match pyInStr "auth_token" b with
  | .error e => .error e
  | .ok false => .ok none
  | .ok true =>
    match pySubscript "auth_token" b with
    | .error e => .error e
    | .ok atok =>
      match pyInStr "token" atok with
      | .error e => .error e
      | .ok false => .ok none
      | .ok true =>
        match pySubscript "token" atok with
        | .error e => .error e
        | .ok tok => .ok (some tok)

/-- `step_2_create_guest` (lines 91-127): on 200, extract the nested
credential; a 200 body without the nested shape is the "No token in
response" branch, distinct from the non-200 branch and from the exception
branch. -/
def step_2_create_guest : Option HttpResp → Step2Out
  | none => .fail .transportErr
  | some r =>
    if r.status == 200 then
      match nestedAuthToken r.body with
      | .ok (some tok) => .tokenOk tok
      | .ok none => .fail .malformedBody
      | .error _ => .fail .transportErr
    else .fail .badStatus

/-- `step_8_get_addresses` (lines 129-146): requires a truthy credential,
succeeds on 200. -/
def step_8_get_addresses (jwt : Json) : Option HttpResp → Bool
  | none => false
  | some r => truthyJson jwt && r.status == 200

/-- `step_9_address_autocomplete` (lines 148-194): on 200 with a
non-empty suggestion list whose first element is a mapping, return its
truthy `google_place_id`; every other shape ends in `None` (empty list,
missing/falsy id, or an exception from indexing a non-list body). -/
def step_9_address_autocomplete (jwt : Json) : Option HttpResp → Option Json
  | none => none
  | some r =>
    if !truthyJson jwt then none
    else if r.status == 200 then
      match r.body with
      | .arr (.cons first _) =>
        match first with
        | .obj kvs =>
          let place := (objLookup "google_place_id" kvs).getD .null
          if truthyJson place then some place else none
        | _ => none
      | _ => none
    else none

/-- `step_10_address_details` (lines 196-236): on 200, read
`data.get('lat')` / `data.get('lng')` and fail if either is `None`
(missing key or JSON null); a non-mapping body raises into the except
branch. -/
def step_10_address_details (jwt : Json) : Option HttpResp → Option (Json × Json)
  | none => none
  | some r =>
    if !truthyJson jwt then none
    else if r.status == 200 then
      match r.body with
      | .obj kvs =>
        let lat := (objLookup "lat" kvs).getD .null
        let lng := (objLookup "lng" kvs).getD .null
        match lat, lng with
        | .null, _ => none
        | _, .null => none
        | _, _ => some (lat, lng)
      | _ => none
    else none

/-- `step_11_validate_address` (lines 238-265): 200 is success. -/
def step_11_validate_address (jwt : Json) : Option HttpResp → Bool
  | none => false
  | some r => truthyJson jwt && r.status == 200

/-- `step_12_add_address` (lines 267-315): on 200 with `'id' in data`,
record the address id (whatever value it is); otherwise fail. -/
def step_12_add_address (jwt : Json) : Option HttpResp → Option Json
  | none => none
  | some r =>
    if !truthyJson jwt then none
    else if r.status == 200 then
      match r.body with
      | .obj kvs => objLookup "id" kvs
      | _ => none
    else none

/-- `step_13_set_default_address` (lines 317-347): fails only when the
credential or address id is falsy; with those set it returns `True` on
200, on 404 ("Continuing anyway"), on ANY other status ("Don't abort
here"), and even on an exception ("Continue anyway"). -/
def step_13_set_default_address (jwt addrId : Json) (r : Option HttpResp) : Bool :=
  if !(truthyJson jwt && truthyJson addrId) then false
  else
    match r with
    | none => true
    | some h =>
      if h.status == 200 then true
      else if h.status == 404 then true
      else true

/-- `step_14_homepage_feed` (lines 349-396): requires truthy coordinates,
returns the 200 body. -/
def step_14_homepage_feed (lat lng : Json) : Option HttpResp → Option Json
  | none => none
  | some r =>
    if !(truthyJson lat && truthyJson lng) then none
    else if r.status == 200 then some r.body else none

/-- `step_15_content_feed` (lines 398-460): requires truthy coordinates,
returns the 200 body (the cursor only shapes the request, not the
response handling). -/
def step_15_content_feed (lat lng : Json) (r : Option HttpResp) : Option Json :=
  if !(truthyJson lat && truthyJson lng) then none
  else
    match r with
    | none => none
    | some h => if h.status == 200 then some h.body else none

end NowOnDoordash

namespace NowOnDoordash

/-- The remote service's responses for one execution of the optimized
flow, one per request the flow can make (`none` = transport exception). -/
structure FlowResponses where
  health : Option HttpResp
  guest : Option HttpResp
  addresses : Option HttpResp
  autocomplete : Option HttpResp
  details : Option HttpResp
  validate : Option HttpResp
  addAddress : Option HttpResp
  setDefault : Option HttpResp
  homepage : Option HttpResp
  sectionFeed : Option HttpResp
  generalFeed : Option HttpResp

/-- What `run_optimized_flow` hands back: a store list (`return stores`,
only ever reached when non-empty) or `return None`, tagged with the
diagnostic printed at that return site (the fallback path's final
`return None` prints nothing specific; it is tagged with the
"section not found" diagnostic printed on entering that path). -/
inductive FlowOutcome where
  | success (stores : List StoreRec)
  | failure (msg : String)

/-- `run_optimized_flow` (lines 575-696), as a function of the remote
responses. The first component lists the step methods invoked, in order;
`Except.error` is an exception escaping the unguarded calls to
`find_now_on_doordash_cursor` / `extract_stores_from_feed`. File writes
and console output are the excluded I/O collaborator. -/
def run_optimized_flow (resp : FlowResponses) : Except Unit (List String × FlowOutcome) :=
  let _ := step_1_health_check resp.health
  let t1 := ["step_1_health_check", "step_2_create_guest"]
  match step_2_create_guest resp.guest with
  | .fail _ => .ok (t1, .failure "Failed to create guest user - ABORTING")
  | .tokenOk jwt =>
    let t2 := t1 ++ ["step_8_get_addresses"]
    if !step_8_get_addresses jwt resp.addresses then
      .ok (t2, .failure "Address check failed - ABORTING")
    else
      let t3 := t2 ++ ["step_9_address_autocomplete"]
      match step_9_address_autocomplete jwt resp.autocomplete with
      | none => .ok (t3, .failure "Address autocomplete failed - ABORTING")
      | some _place =>
        let t4 := t3 ++ ["step_10_address_details"]
        match step_10_address_details jwt resp.details with
        | none => .ok (t4, .failure "Failed to get address details - ABORTING")
        | some (lat, lng) =>
          let t5 := t4 ++ ["step_11_validate_address"]
          if !step_11_validate_address jwt resp.validate then
            .ok (t5, .failure "Address validation failed - ABORTING")
          else
            let t6 := t5 ++ ["step_12_add_address"]
            match step_12_add_address jwt resp.addAddress with
            | none => .ok (t6, .failure "Failed to add address - ABORTING")
            | some addrId =>
              let t7 := t6 ++ ["step_13_set_default_address"]
              let _ := step_13_set_default_address jwt addrId resp.setDefault
              let t8 := t7 ++ ["step_14_homepage_feed"]
              match step_14_homepage_feed lat lng resp.homepage with
              | none => .ok (t8, .failure "Failed to get homepage feed - ABORTING")
              | some homepage =>
                if !truthyJson homepage then
                  .ok (t8, .failure "Failed to get homepage feed - ABORTING")
                else
                  match find_now_on_doordash_cursor homepage with
                  | .error e => .error e
                  | .ok cur =>
                    let t9 := t8 ++ ["step_15_content_feed"]
                    if truthyOptStr cur then
                      match step_15_content_feed lat lng resp.sectionFeed with
                      | none => .ok (t9, .failure "Failed to get Now on DoorDash content feed")
                      | some nf =>
                        if !truthyJson nf then
                          .ok (t9, .failure "Failed to get Now on DoorDash content feed")
                        else
                          match extract_stores_from_feed nf "Now on DoorDash" with
                          | .error e => .error e
                          | .ok stores =>
                            if !stores.isEmpty then .ok (t9, .success stores)
                            else .ok (t9, .failure "No stores found in Now on DoorDash feed")
                    else
                      match step_15_content_feed lat lng resp.generalFeed with
                      | none => .ok (t9, .failure "Now on DoorDash section not found")
                      | some gf =>
                        if !truthyJson gf then
                          .ok (t9, .failure "Now on DoorDash section not found")
                        else
                          match extract_stores_from_feed gf "General Feed" with
                          | .error e => .error e
                          | .ok stores =>
                            if !stores.isEmpty then .ok (t9, .success stores)
                            else .ok (t9, .failure "Now on DoorDash section not found")

end NowOnDoordash

namespace GuestFlow

/-- `doordash_guest_flow.step_2_create_guest_user` (lines 132-176):
like the optimized variant, but with a fallback: when the nested
`auth_token.token` shape is absent (and checking it did not raise), a
top-level `token` key is accepted; all failures collapse to `False`. -/
inductive Step2Out where
  | tokenOk (tok : Json)
  | failed

/-- The credential extraction of `step_2_create_guest_user` on a 200
body: nested shape first, then the `elif 'token' in data` fallback. -/
def guestToken (b : Json) : Step2Out :=
  match NowOnDoordash.nestedAuthToken b with
  | .error _ => .failed
  | .ok (some tok) => .tokenOk tok
  | .ok none =>
    match pyInStr "token" b with
    | .error _ => .failed
    | .ok true =>
      match pySubscript "token" b with
      | .error _ => .failed
      | .ok tok => .tokenOk tok
    | .ok false => .failed

/-- `step_2_create_guest_user` (lines 132-176). -/
def step_2_create_guest_user : Option HttpResp → Step2Out
  | none => .failed
  | some r => if r.status == 200 then guestToken r.body else .failed

/-- `step_10_get_address_details` (lines 348-378): on 200, succeed (and
return the body) when BOTH `lat` and `lng` KEYS are present — their
values are recorded unexamined, so a present-but-null coordinate passes. -/
def step_10_get_address_details : Option HttpResp → Option Json
  | none => none
  | some r =>
    if r.status == 200 then
      match r.body with
      | .obj kvs =>
        if (objLookup "lat" kvs).isSome && (objLookup "lng" kvs).isSome then
          some (.obj kvs)
        else none
      | _ => none
    else none

/-- `step_13_set_default_address` (lines 443-462): requires a truthy
address id and a strict 200; a 404 (or any other status, or an
exception) is `False`, and `run_complete_flow` (lines 671-673) aborts
the whole flow on `False`. -/
def step_13_set_default_address (addrId : Json) (r : Option HttpResp) : Bool :=
  if !truthyJson addrId then false
  else
    match r with
    | none => false
    | some h => h.status == 200

end GuestFlow

/-! ## The default fallback cursor (`step_15_content_feed`, lines 423-440)

When no section cursor was found, the code builds a fixed selection
descriptor, serialises it with `json.dumps` (default separators: comma +
space, colon + space) and encodes it with `base64.b64encode` over the
UTF-8 bytes. `doordash_guest_flow.step_15_content_feed` (lines 528-534)
decodes such a token back with `base64.b64decode` + `json.loads`. The
serialiser, base64 codec and reader below model those stdlib calls for
the value shapes the descriptor uses (objects, arrays, plain strings
without escapes, integers, constants). -/

mutual

/-- `json.dumps` with default separators (strings here need no escaping). -/
def jsonDumps : Json → String
  | .str s => "\"" ++ s ++ "\""
  | .num n => toString n
  | .bool true => "true"
  | .bool false => "false"
  | .null => "null"
  | .arr xs => "[" ++ dumpsList xs ++ "]"
  | .obj kvs => "\x7b" ++ dumpsObj kvs ++ "\x7d"

def dumpsList : JsonList → String
  | .nil => ""
  | .cons h .nil => jsonDumps h
  | .cons h tl => jsonDumps h ++ ", " ++ dumpsList tl

def dumpsObj : JsonObj → String
  | .nil => ""
  | .cons k v .nil => "\"" ++ k ++ "\": " ++ jsonDumps v
  | .cons k v tl => "\"" ++ k ++ "\": " ++ jsonDumps v ++ ", " ++ dumpsObj tl

end

/-- The standard base64 alphabet. -/
def b64Alphabet : List Char :=
  "ABCDEFGHIJKLMNOPQRSTUVWXYZabcdefghijklmnopqrstuvwxyz0123456789+/".data

/-- Character for a 6-bit group. -/
def b64Char (n : Nat) : Char := b64Alphabet.getD n 'A'

/-- 6-bit value of an alphabet character. -/
def b64Val (c : Char) : Nat := (b64Alphabet.indexOf c)

/-- `base64.b64encode` over a byte list. -/
def b64EncodeBytes : List Nat → List Char
  | [] => []
  | [a] =>
    let n := a * 65536
    [b64Char (n / 262144), b64Char (n / 4096 % 64), '=', '=']
  | [a, b] =>
    let n := a * 65536 + b * 256
    [b64Char (n / 262144), b64Char (n / 4096 % 64), b64Char (n / 64 % 64), '=']
  | a :: b :: c :: rest =>
    let n := a * 65536 + b * 256 + c
    b64Char (n / 262144) :: b64Char (n / 4096 % 64) :: b64Char (n / 64 % 64) ::
      b64Char (n % 64) :: b64EncodeBytes rest

/-- `base64.b64decode` over the characters of a well-padded token. -/
def b64DecodeChars : List Char → List Nat
  | [a, b, '=', '='] => [b64Val a * 4 + b64Val b / 16]
  | [a, b, c, '='] =>
    let n := b64Val a * 4096 + b64Val b * 64 + b64Val c
    [n / 1024, n / 4 % 256]
  | a :: b :: c :: d :: rest =>
    let n := b64Val a * 262144 + b64Val b * 4096 + b64Val c * 64 + b64Val d
    n / 65536 :: n / 256 % 256 :: n % 256 :: b64DecodeChars rest
  | _ => []

/-- `str.encode()`: UTF-8 bytes (the serialised cursor is pure ASCII). -/
def strToBytes (s : String) : List Nat := s.data.map Char.toNat

/-- `bytes.decode()` for ASCII byte lists. -/
def bytesToStr (bs : List Nat) : String := ⟨bs.map Char.ofNat⟩

/-- Skip JSON whitespace. -/
def skipWs : List Char → List Char
  | c :: rest => if c == ' ' || c == '\n' || c == '\t' || c == '\r' then skipWs rest else c :: rest
  | [] => []

/-- Read the characters of a string literal up to the closing quote
(no escape sequences occur in the cursor grammar). -/
def readStr : List Char → Option (String × List Char)
  | [] => none
  | c :: rest =>
    if c == '"' then some ("", rest)
    else
      match readStr rest with
      | some (s, rem) => some (⟨c :: s.data⟩, rem)
      | none => none

/-- Read a decimal integer (optionally negative). -/
def readDigits (acc : Nat) (sawOne : Bool) : List Char → Option (Nat × List Char)
  | c :: rest =>
    if c.isDigit then readDigits (acc * 10 + (c.toNat - 48)) true rest
    else if sawOne then some (acc, c :: rest) else none
  | [] => if sawOne then some (acc, []) else none

mutual

/-- `json.loads`, fuelled recursive-descent over the characters. -/
def readJson (fuel : Nat) (s : List Char) : Option (Json × List Char) :=
  match fuel with
  | 0 => none
  | fuel + 1 =>
    match skipWs s with
    | '"' :: rest =>
      match readStr rest with
      | some (str, rem) => some (.str str, rem)
      | none => none
    | '[' :: rest =>
      (match skipWs rest with
       | ']' :: rem => some (.arr .nil, rem)
       | other => readArrItems fuel other)
    | '\x7b' :: rest =>
      (match skipWs rest with
       | '\x7d' :: rem => some (.obj .nil, rem)
       | other => readObjItems fuel other)
    | 't' :: 'r' :: 'u' :: 'e' :: rest => some (.bool true, rest)
    | 'f' :: 'a' :: 'l' :: 's' :: 'e' :: rest => some (.bool false, rest)
    | 'n' :: 'u' :: 'l' :: 'l' :: rest => some (.null, rest)
    | '-' :: rest =>
      (match readDigits 0 false rest with
       | some (n, rem) => some (.num (-(n : Int)), rem)
       | none => none)
    | other =>
      match readDigits 0 false other with
      | some (n, rem) => some (.num (n : Int), rem)
      | none => none

/-- One-or-more comma-separated array items, then `]`. -/
def readArrItems (fuel : Nat) (s : List Char) : Option (Json × List Char) :=
  match fuel with
  | 0 => none
  | fuel + 1 =>
    match readJson fuel s with
    | none => none
    | some (j, rem) =>
      match skipWs rem with
      | ',' :: rest =>
        (match readArrItems fuel rest with
         | some (.arr tl, rem2) => some (.arr (.cons j tl), rem2)
         | _ => none)
      | ']' :: rest => some (.arr (.cons j .nil), rest)
      | _ => none

/-- One-or-more `"key": value` object members, then the closing brace. -/
def readObjItems (fuel : Nat) (s : List Char) : Option (Json × List Char) :=
  match fuel with
  | 0 => none
  | fuel + 1 =>
    match skipWs s with
    | '"' :: rest =>
      (match readStr rest with
       | none => none
       | some (k, rem) =>
         match skipWs rem with
         | ':' :: rest2 =>
           (match readJson fuel rest2 with
            | none => none
            | some (v, rem2) =>
              match skipWs rem2 with
              | ',' :: rest3 =>
                (match readObjItems fuel rest3 with
                 | some (.obj tl, rem3) => some (.obj (.cons k v tl), rem3)
                 | _ => none)
              | '\x7d' :: rest3 => some (.obj (.cons k v .nil), rest3)
              | _ => none)
         | _ => none)
    | _ => none

end

/-- `json.loads` on a whole string. -/
def jsonLoads (s : String) : Option Json :=
  match readJson (s.length + 1) s.data with
  | some (j, rest) => if skipWs rest == [] then some j else none
  | none => none

/-- The `default_cursor` dict of `step_15_content_feed`
(`Now_on_doordash.py` lines 424-437, identically
`doordash_guest_flow.py` lines 571-584). -/
def default_cursor : Json :=
  jobj [("offset", .num 0),
        ("content_ids", jarr [.str "10821511", .str "27460306", .str "33917167"]),
        ("request_parent_id", .str "DEFAULT_HOMEPAGE"),
        ("request_child_id", .str "carousel.standard:store_carousel:eta"),
        ("cross_vertical_page_type", .str "DEFAULT_HOMEPAGE"),
        ("page_stack_trace", jarr []),
        ("vertical_ids", jarr []),
        ("baseCursor", jobj [("page_id", .str "eta"),
                             ("page_type", .str "STORE_CAROUSEL_LANDING"),
                             ("cursor_version", .str "FACET")])]

/-- `cursor_b64 = base64.b64encode(json.dumps(default_cursor).encode()).decode()`. -/
def defaultCursorToken : String :=
  ⟨b64EncodeBytes (strToBytes (jsonDumps default_cursor))⟩

/-- The decode direction used by the guest flow on long cursors:
`json.loads(base64.b64decode(cursor_id).decode())`. -/
def decodeCursorToken (tok : String) : Option Json :=
  jsonLoads (bytesToStr (b64DecodeChars tok.data))

set_option maxRecDepth 8000 in
example : jsonLoads (jsonDumps default_cursor) = some default_cursor := by rfl

/-! ## Concrete documents used by counterexamples and witnesses -/

/-- A title-matching node whose uri is exactly the bare head, followed by
a sibling with a real token: the empty candidate is discarded and the
walk moves on. -/
def docEmptyTokenSibling : Json :=
  jobj [("a", jobj [("text", jobj [("title", .str "Now on DoorDash")]),
                    ("events", jobj [("click", jobj [("data", jobj [("uri", .str "facet_feed/")])])])]),
        ("b", jobj [("text", jobj [("title", .str "Now on DoorDash")]),
                    ("events", jobj [("click", jobj [("data", jobj [("uri", .str "facet_feed/QQQ/")])])])])]

/-- A document whose matching node carries a non-string `text.title`:
`.strip()` raises an AttributeError inside the search. -/
def docRaisingTitle : Json := jobj [("text", jobj [("title", .num 5)])]

/-- A 200 guest-creation body with the nested `token` key missing
(Scenario D). -/
def malformedGuestBody : Json := jobj [("auth_token", jobj [])]

/-! ## Claims C4, C5, C6, C8, C9, C10 -/

/-- C4: a guest-session creation response with success status but body
`{"auth_token": {}}` takes the malformed-body branch (distinct from the
bad-status branch), and the optimized flow stops right there: only the
health check and guest creation are attempted, and the result is the
abort naming guest creation — whatever every other response is. -/
theorem C4_guest_malformed_aborts :
    ∀ resp : NowOnDoordash.FlowResponses,
      resp.guest = some ⟨200, malformedGuestBody⟩ →
      NowOnDoordash.step_2_create_guest resp.guest =
        .fail .malformedBody ∧
      NowOnDoordash.StepFailKind.malformedBody ≠ NowOnDoordash.StepFailKind.badStatus ∧
      NowOnDoordash.run_optimized_flow resp =
        .ok (["step_1_health_check", "step_2_create_guest"],
             .failure "Failed to create guest user - ABORTING") := by
  intro resp h
  refine ⟨by rw [h]; rfl, by decide, ?_⟩
  unfold NowOnDoordash.run_optimized_flow
  rw [h]
  rfl

/-- C4 witness: the theorem applied at a concrete response assignment. -/
theorem C4_witness :
    NowOnDoordash.run_optimized_flow
        { health := none, guest := some ⟨200, malformedGuestBody⟩,
          addresses := none, autocomplete := none, details := none,
          validate := none, addAddress := none, setDefault := none,
          homepage := none, sectionFeed := none, generalFeed := none } =
      .ok (["step_1_health_check", "step_2_create_guest"],
           .failure "Failed to create guest user - ABORTING") :=
  (C4_guest_malformed_aborts _ rfl).2.2

/-- C5 (amended): in the optimized flow, a 200 address-detail body whose
`lat` or `lng` is missing OR null fails the step; in the guest-flow
variant only a MISSING `lat`/`lng` key fails it (a present-but-null
coordinate passes, see `C5_counterexample`). -/
theorem C5_coord_missing_fails :
    (∀ (jwt : Json) (kvs : JsonObj),
        ((objLookup "lat" kvs).getD .null = .null ∨
         (objLookup "lng" kvs).getD .null = .null) →
        NowOnDoordash.step_10_address_details jwt (some ⟨200, .obj kvs⟩) = none) ∧
    (∀ kvs : JsonObj,
        (objLookup "lat" kvs = none ∨ objLookup "lng" kvs = none) →
        GuestFlow.step_10_get_address_details (some ⟨200, .obj kvs⟩) = none) := by
  constructor
  · intro jwt kvs h
    unfold NowOnDoordash.step_10_address_details
    rcases h with h | h
    · simp [h]
    · simp [h]
      split <;> simp_all
  · intro kvs h
    unfold GuestFlow.step_10_get_address_details
    rcases h with h | h <;> simp [h]

/-- C5 counterexample: the guest-flow step ACCEPTS a 200 body whose
coordinates are present but null, returning the body (a truthy dict), so
the flow proceeds past the step with unset coordinates. -/
theorem C5_counterexample :
    GuestFlow.step_10_get_address_details
        (some ⟨200, jobj [("lat", .null), ("lng", .null)]⟩) =
      some (jobj [("lat", .null), ("lng", .null)]) := by rfl

/-- C5 witness: both halves of the theorem at concrete responses. -/
theorem C5_witness :
    NowOnDoordash.step_10_address_details (.str "T")
        (some ⟨200, jobj [("lat", .null), ("lng", .num 7)]⟩) = none ∧
    GuestFlow.step_10_get_address_details (some ⟨200, jobj [("lng", .num 7)]⟩) = none :=
  ⟨C5_coord_missing_fails.1 (.str "T") (jfields [("lat", .null), ("lng", .num 7)]) (Or.inl rfl),
   C5_coord_missing_fails.2 (jfields [("lng", .num 7)]) (Or.inl rfl)⟩

/-- C6 (amended): once the credential and address id are set, the
optimized set-default-address step succeeds no matter what the response
is — 404, any other status, or a transport error alike; the guest-flow
variant instead succeeds exactly on a 200 (so even a 404 fails it, and
`run_complete_flow` aborts). -/
theorem C6_set_default_tolerance :
    (∀ (jwt addrId : Json) (r : Option HttpResp),
        truthyJson jwt = true → truthyJson addrId = true →
        NowOnDoordash.step_13_set_default_address jwt addrId r = true) ∧
    (∀ (addrId : Json) (r : Option HttpResp),
        GuestFlow.step_13_set_default_address addrId r = true ↔
          (truthyJson addrId = true ∧ ∃ h, r = some h ∧ h.status = 200)) := by
  constructor
  · intro jwt addrId r h1 h2
    unfold NowOnDoordash.step_13_set_default_address
    cases r <;> simp [h1, h2]
  · intro addrId r
    unfold GuestFlow.step_13_set_default_address
    cases r with
    | none => simp
    | some h => cases htt : truthyJson addrId <;> simp [htt]

/-- C6 counterexample: a 500 is tolerated exactly like a 404 by the
optimized step (the claim allows only the 404 class), while the guest
variant rejects a 404 outright. -/
theorem C6_counterexample :
    NowOnDoordash.step_13_set_default_address (.str "T") (.str "A") (some ⟨500, .null⟩) = true ∧
    NowOnDoordash.step_13_set_default_address (.str "T") (.str "A") (some ⟨404, .null⟩) = true ∧
    GuestFlow.step_13_set_default_address (.str "A") (some ⟨404, .null⟩) = false :=
  ⟨rfl, rfl, rfl⟩

/-- C6 witness: the theorem applied at concrete state and responses. -/
theorem C6_witness :
    NowOnDoordash.step_13_set_default_address (.str "T") (.str "A") (some ⟨503, .null⟩) = true ∧
    GuestFlow.step_13_set_default_address (.str "A") (some ⟨200, .null⟩) = true :=
  ⟨C6_set_default_tolerance.1 (.str "T") (.str "A") (some ⟨503, .null⟩) rfl rfl,
   (C6_set_default_tolerance.2 (.str "A") (some ⟨200, .null⟩)).mpr
     ⟨rfl, ⟨200, .null⟩, rfl, rfl⟩⟩

set_option maxRecDepth 40000 in
/-- C8: serialising the default fallback selection descriptor with
`json.dumps`, base64-encoding it, then base64-decoding and parsing it
back yields the descriptor unchanged — offset, content id list and the
nested base-cursor fields included. -/
theorem C8_cursor_roundtrip :
    decodeCursorToken defaultCursorToken = some default_cursor := by rfl

/-- C9: the search wrapper never hands back an empty token — a falsy
cursor is converted to `None` — and a node matching with the bare
`facet_feed/` uri is skipped, the walk continuing past it to a later
match. -/
theorem C9_no_empty_token :
    (∀ (d : Json) (r : Option String),
        find_now_on_doordash_cursor d = .ok r → r ≠ some "") ∧
    find_now_on_doordash_cursor docEmptyTokenSibling = .ok (some "QQQ") := by
  refine ⟨?_, by rfl⟩
  intro d r h
  unfold find_now_on_doordash_cursor at h
  cases hs : search_for_now_on_doordash d with
  | error e => rw [hs] at h; cases h
  | ok c =>
    rw [hs] at h
    cases c with
    | none => simp [truthyOptStr] at h; simp [← h]
    | some s =>
      by_cases he : s = ""
      · subst he; simp [truthyOptStr] at h; simp [← h]
      · simp [truthyOptStr, he] at h
        rw [← h]
        simp [he]

/-- C9 witness: the first conjunct applied at Scenario A. -/
theorem C9_witness : (some "ABC123" : Option String) ≠ some "" :=
  C9_no_empty_token.1 docScenarioA (some "ABC123") rfl

/-- C10: the guest-flow guest creation accepts a 200 body carrying a
top-level `token` even when the nested `auth_token.token` shape is
absent, taking the credential from the direct key. -/
theorem C10_guest_token_fallback :
    ∀ (kvs : JsonObj) (t : Json),
      NowOnDoordash.nestedAuthToken (.obj kvs) = .ok none →
      objLookup "token" kvs = some t →
      GuestFlow.step_2_create_guest_user (some ⟨200, .obj kvs⟩) = .tokenOk t := by
  intro kvs t h1 h2
  simp [GuestFlow.step_2_create_guest_user, GuestFlow.guestToken, h1,
        pyInStr, pySubscript, h2]

/-- C10 witness: the theorem at a concrete body `{"token": "TOK"}`. -/
theorem C10_witness :
    GuestFlow.step_2_create_guest_user (some ⟨200, jobj [("token", .str "TOK")]⟩) =
      .tokenOk (.str "TOK") :=
  C10_guest_token_fallback (jfields [("token", .str "TOK")]) (.str "TOK") rfl rfl

/-! ## Claims C2 and C3: the extraction invariants -/

/-- The emission guard of `extract_store_info`: an appended record's name
is non-empty and longer than two characters. -/
theorem extract_store_info_node_names (src path : String) (kvs : JsonObj)
    (r : StoreRec) (h : extract_store_info_node src path kvs = .ok (some r)) :
    ¬(r.name = "") ∧ 2 < r.name.length := by
  unfold extract_store_info_node at h
  split at h
  · exact Except.noConfusion h
  · split at h
    · exact Except.noConfusion h
    · split at h
      · split at h
        · rename_i hg
          injection h with h1
          injection h1 with h2
          rw [← h2]
          exact hg
        · simp at h
      · simp at h

mutual

/-- Every candidate collected by `extract_store_info` satisfies the name
guard. -/
theorem extract_store_info_names : ∀ (j : Json) (src path : String)
    (l : List StoreRec), extract_store_info src path j = .ok l →
    ∀ r ∈ l, ¬(r.name = "") ∧ 2 < r.name.length
  | .obj kvs, src, path, l, h, r, hr => by
    rw [extract_store_info] at h
    cases hn : extract_store_info_node src path kvs with
    | error e => rw [hn] at h; cases h
    | ok r0 =>
      rw [hn] at h
      cases hf : collectFields src path kvs with
      | error e => rw [hf] at h; cases h
      | ok rest =>
        rw [hf] at h
        cases r0 with
        | some r1 =>
          simp only [Except.ok.injEq] at h
          subst h
          rcases List.mem_cons.mp hr with hr1 | hr2
          · subst hr1; exact extract_store_info_node_names src path kvs r hn
          · exact collectFields_names kvs src path rest hf r hr2
        | none =>
          simp only [Except.ok.injEq] at h
          rw [← h] at hr
          exact collectFields_names kvs src path rest hf r hr
  | .arr xs, src, path, l, h, r, hr => collectElems_names xs src path 0 l h r hr
  | .str s, src, path, l, h, r, hr => by
    rw [extract_store_info] at h
    simp only [Except.ok.injEq] at h
    subst h; cases hr
  | .num n, src, path, l, h, r, hr => by
    rw [extract_store_info] at h
    simp only [Except.ok.injEq] at h
    subst h; cases hr
  | .bool b, src, path, l, h, r, hr => by
    rw [extract_store_info] at h
    simp only [Except.ok.injEq] at h
    subst h; cases hr
  | .null, src, path, l, h, r, hr => by
    rw [extract_store_info] at h
    simp only [Except.ok.injEq] at h
    subst h; cases hr

theorem collectFields_names : ∀ (kvs : JsonObj) (src path : String)
    (l : List StoreRec), collectFields src path kvs = .ok l →
    ∀ r ∈ l, ¬(r.name = "") ∧ 2 < r.name.length
  | .nil, src, path, l, h, r, hr => by
    rw [collectFields] at h
    simp only [Except.ok.injEq] at h
    subst h; cases hr
  | .cons k v tl, src, path, l, h, r, hr => by
    rw [collectFields] at h
    split at h
    · cases h1 : extract_store_info src (path ++ "." ++ k) v with
      | error e => rw [h1] at h; cases h
      | ok l1 =>
        rw [h1] at h
        cases h2 : collectFields src path tl with
        | error e => rw [h2] at h; cases h
        | ok l2 =>
          rw [h2] at h
          simp only [Except.ok.injEq] at h
          subst h
          rcases List.mem_append.mp hr with hm | hm
          · exact extract_store_info_names v src (path ++ "." ++ k) l1 h1 r hm
          · exact collectFields_names tl src path l2 h2 r hm
    · exact collectFields_names tl src path l h r hr

theorem collectElems_names : ∀ (xs : JsonList) (src path : String) (i : Nat)
    (l : List StoreRec), collectElems src path i xs = .ok l →
    ∀ r ∈ l, ¬(r.name = "") ∧ 2 < r.name.length
  | .nil, src, path, i, l, h, r, hr => by
    rw [collectElems] at h
    simp only [Except.ok.injEq] at h
    subst h; cases hr
  | .cons hd tl, src, path, i, l, h, r, hr => by
    rw [collectElems] at h
    cases h1 : extract_store_info src (path ++ "[" ++ toString i ++ "]") hd with
    | error e => rw [h1] at h; cases h
    | ok l1 =>
      rw [h1] at h
      cases h2 : collectElems src path (i + 1) tl with
      | error e => rw [h2] at h; cases h
      | ok l2 =>
        rw [h2] at h
        simp only [Except.ok.injEq] at h
        subst h
        rcases List.mem_append.mp hr with hm | hm
        · exact extract_store_info_names hd src (path ++ "[" ++ toString i ++ "]") l1 h1 r hm
        · exact collectElems_names tl src path (i + 1) l2 h2 r hm

end

/-- The dedup loop only drops elements: its output is a sublist of its
input. -/
theorem dedupAux_sublist : ∀ (seen : List String) (l : List StoreRec),
    List.Sublist (dedupAux seen l) l
  | _, [] => .slnil
  | seen, r :: rs => by
    unfold dedupAux
    split
    · exact .cons₂ r (dedupAux_sublist _ rs)
    · exact .cons r (dedupAux_sublist seen rs)

/-- C3: every record `extract_stores_from_feed` returns has a non-empty
name at least three characters long — a candidate node with a short or
empty assembled name is never emitted, whatever other sub-structures it
carries. -/
theorem C3_extract_name_length :
    ∀ (d : Json) (src : String) (recs : List StoreRec),
      extract_stores_from_feed d src = .ok recs →
      ∀ r ∈ recs, ¬(r.name = "") ∧ 3 ≤ r.name.length := by
  intro d src recs h r hr
  unfold extract_stores_from_feed at h
  cases hc : extract_store_info src "" d with
  | error e => rw [hc] at h; exact Except.noConfusion h
  | ok cands =>
    rw [hc] at h
    simp only [Except.ok.injEq] at h
    rw [← h] at hr
    exact extract_store_info_names d src "" cands hc r
      ((dedupAux_sublist [] cands).subset hr)

/-- The first record extracted from Scenario C. -/
def pizzaRec1 : StoreRec :=
  { name := "Pizza Place", subtitle := "Great pizza", rating := none,
    delivery_fee := none, delivery_time := none, store_id := none,
    uri := none, source := "feed", path := "[0]" }

/-- The case-variant duplicate candidate from Scenario C (collected, then
dropped by the dedup pass). -/
def pizzaRec2 : StoreRec :=
  { name := "Pizza place", subtitle := "", rating := none,
    delivery_fee := none, delivery_time := none, store_id := none,
    uri := none, source := "feed", path := "[1]" }

/-- C3 witness: the theorem applied to Scenario C's output record. -/
theorem C3_witness : ¬(pizzaRec1.name = "") ∧ 3 ≤ pizzaRec1.name.length :=
  C3_extract_name_length docScenarioC "feed" [pizzaRec1] rfl pizzaRec1
    (List.mem_singleton.mpr rfl)

/-- Lowercasing maps only the empty string to the empty string. -/
theorem strLower_eq_empty {s : String} (h : strLower s = "") : s = "" := by
  cases s with
  | mk data =>
    cases data with
    | nil => rfl
    | cons c cs =>
      exfalso
      have hd : (strLower ⟨c :: cs⟩).data = ("" : String).data := by rw [h]
      simp [strLower] at hd

/-- `specFirstOcc` keeps a sub-sequence of its input. -/
theorem specFirstOcc_sublist (l : List StoreRec) :
    List.Sublist (specFirstOcc l) l := by
  induction l using specFirstOcc.induct with
  | case1 => simp [specFirstOcc]
  | case2 r rs ih =>
    rw [specFirstOcc]
    exact List.Sublist.cons₂ r (ih.trans (List.filter_sublist rs))

/-- The lower-cased names of `specFirstOcc`'s output are pairwise
distinct: exactly one record per distinct lower-cased name. -/
theorem specFirstOcc_lower_nodup (l : List StoreRec) :
    ((specFirstOcc l).map fun r => strLower r.name).Nodup := by
  induction l using specFirstOcc.induct with
  | case1 => simp [specFirstOcc]
  | case2 r rs ih =>
    rw [specFirstOcc]
    simp only [List.map_cons, List.nodup_cons]
    refine ⟨?_, ih⟩
    intro hmem
    rcases List.mem_map.mp hmem with ⟨s, hs, hlow⟩
    have hs2 := (specFirstOcc_sublist _).subset hs
    have hp := List.of_mem_filter hs2
    simp at hp
    exact hp hlow

/-- The seen-set dedup loop equals the first-occurrence filter, for
records whose lower-cased names are non-empty. -/
theorem dedupAux_eq_firstOcc :
    ∀ (l : List StoreRec) (seen : List String),
      (∀ r ∈ l, ¬(strLower r.name = "")) →
      dedupAux seen l =
        specFirstOcc (l.filter fun r => !(decide (strLower r.name ∈ seen))) := by
  intro l
  induction l with
  | nil => intro seen _; simp [dedupAux, specFirstOcc]
  | cons r rs ih =>
    intro seen hne
    have hr : ¬(strLower r.name = "") := hne r (by simp)
    by_cases hseen : strLower r.name ∈ seen
    · rw [dedupAux, if_neg (by simp [hseen])]
      have hfil : (r :: rs).filter (fun s => !(decide (strLower s.name ∈ seen))) =
          rs.filter (fun s => !(decide (strLower s.name ∈ seen))) := by
        simp [List.filter_cons, hseen]
      rw [hfil]
      exact ih seen (fun s hs => hne s (by simp [hs]))
    · rw [dedupAux, if_pos ⟨hr, hseen⟩]
      have hfil : (r :: rs).filter (fun s => !(decide (strLower s.name ∈ seen))) =
          r :: rs.filter (fun s => !(decide (strLower s.name ∈ seen))) := by
        simp [List.filter_cons, hseen]
      rw [hfil, specFirstOcc]
      congr 1
      rw [ih (strLower r.name :: seen) (fun s hs => hne s (by simp [hs]))]
      rw [List.filter_filter]
      congr 1
      apply List.filter_congr
      intro s _
      simp only [List.mem_cons, decide_not, Bool.not_eq_true']
      cases hd : decide (strLower s.name = strLower r.name) <;>
        cases hd2 : decide (strLower s.name ∈ seen) <;> simp_all

/-- C2: the returned list is exactly the first-occurrence dedup of the
candidate records collected in depth-first order — one record per
distinct lower-cased name, in first-occurrence order, carrying the
first-seen casing. -/
theorem C2_extract_dedup_first_occurrence :
    ∀ (d : Json) (src : String) (cands recs : List StoreRec),
      extract_store_info src "" d = .ok cands →
      extract_stores_from_feed d src = .ok recs →
      recs = specFirstOcc cands ∧
      ((recs.map fun r => strLower r.name).Nodup) := by
  intro d src cands recs h1 h2
  unfold extract_stores_from_feed at h2
  rw [h1] at h2
  simp only [Except.ok.injEq] at h2
  have hne : ∀ r ∈ cands, ¬(strLower r.name = "") := by
    intro r hrm hcon
    exact (extract_store_info_names d src "" cands h1 r hrm).1 (strLower_eq_empty hcon)
  have heq := dedupAux_eq_firstOcc cands [] hne
  have hfil : cands.filter (fun r => !(decide (strLower r.name ∈ ([] : List String)))) =
      cands := by simp
  rw [hfil] at heq
  exact ⟨by rw [← h2, heq], by rw [← h2, heq]; exact specFirstOcc_lower_nodup cands⟩

/-- C2 witness: Scenario C — the two case-variant candidates collapse to
the first-seen record. -/
theorem C2_witness :
    ([pizzaRec1] : List StoreRec) = specFirstOcc [pizzaRec1, pizzaRec2] ∧
    (([pizzaRec1].map fun r => strLower r.name).Nodup) :=
  C2_extract_dedup_first_occurrence docScenarioC "feed" [pizzaRec1, pizzaRec2]
    [pizzaRec1] rfl rfl

/-! ## Claim C1: the search against its depth-first specification -/

/-- When the click chain is evaluated without raising, it computes the
spec-side click token. -/
theorem clickUriCursor_spec (ev : Json) (t : Option String)
    (h : clickUriCursor ev = .ok t) : t = specClickToken ev := by
  cases ev with
  | num n => exact Except.noConfusion h
  | bool b => exact Except.noConfusion h
  | null => exact Except.noConfusion h
  | str s =>
    cases hc : strContainsSub s "click" <;>
      simp_all [clickUriCursor, pyInStr, pySubscript, specClickToken]
  | arr xs =>
    cases hc : listHasStr "click" xs <;>
      simp_all [clickUriCursor, pyInStr, pySubscript, specClickToken]
  | obj evf =>
    cases hclick : objLookup "click" evf with
    | none => simp_all [clickUriCursor, pyInStr, specClickToken]
    | some cv =>
      cases cv with
      | num n => simp_all [clickUriCursor, pyInStr, pySubscript, pyGet, specClickToken]
      | bool b => simp_all [clickUriCursor, pyInStr, pySubscript, pyGet, specClickToken]
      | null => simp_all [clickUriCursor, pyInStr, pySubscript, pyGet, specClickToken]
      | str s1 => simp_all [clickUriCursor, pyInStr, pySubscript, pyGet, specClickToken]
      | arr xs1 => simp_all [clickUriCursor, pyInStr, pySubscript, pyGet, specClickToken]
      | obj click =>
        cases hcd : (objLookup "data" click).getD (.obj .nil) with
        | num n => simp_all [clickUriCursor, pyInStr, pySubscript, pyGet, specClickToken]
        | bool b => simp_all [clickUriCursor, pyInStr, pySubscript, pyGet, specClickToken]
        | null => simp_all [clickUriCursor, pyInStr, pySubscript, pyGet, specClickToken]
        | str s2 =>
          cases hs2 : strContainsSub s2 "uri" <;>
            simp_all [clickUriCursor, pyInStr, pySubscript, pyGet, specClickToken]
        | arr xs2 =>
          cases hx2 : listHasStr "uri" xs2 <;>
            simp_all [clickUriCursor, pyInStr, pySubscript, pyGet, specClickToken]
        | obj clickData =>
          cases huri : objLookup "uri" clickData with
          | none => simp_all [clickUriCursor, pyInStr, pySubscript, pyGet, specClickToken]
          | some uv =>
            cases uv with
            | num n2 => simp_all [clickUriCursor, pyInStr, pySubscript, pyGet, specClickToken]
            | bool b2 => simp_all [clickUriCursor, pyInStr, pySubscript, pyGet, specClickToken]
            | null => simp_all [clickUriCursor, pyInStr, pySubscript, pyGet, specClickToken]
            | arr a2 => simp_all [clickUriCursor, pyInStr, pySubscript, pyGet, specClickToken]
            | obj o2 => simp_all [clickUriCursor, pyInStr, pySubscript, pyGet, specClickToken]
            | str uri =>
              simp_all [clickUriCursor, pyInStr, pySubscript, pyGet, specClickToken]
              split at h <;> simp_all

/-- When the per-node match runs without raising, it computes the
spec-side node token. -/
theorem nodeCursor_spec (kvs : JsonObj) (t : Option String)
    (h : nodeCursor kvs = .ok t) : t = specNodeToken kvs := by
  cases htext : objLookup "text" kvs with
  | none => simp_all [nodeCursor, titleMatches, specNodeToken]
  | some tv =>
    cases tv with
    | num n => simp_all [nodeCursor, titleMatches, specNodeToken]
    | bool b => simp_all [nodeCursor, titleMatches, specNodeToken]
    | null => simp_all [nodeCursor, titleMatches, specNodeToken]
    | str s => simp_all [nodeCursor, titleMatches, specNodeToken]
    | arr xs => simp_all [nodeCursor, titleMatches, specNodeToken]
    | obj tkvs =>
      cases htitle : (objLookup "title" tkvs).getD (.str "") with
      | num n => simp_all [nodeCursor, titleMatches, pyStrip, specNodeToken]
      | bool b => simp_all [nodeCursor, titleMatches, pyStrip, specNodeToken]
      | null => simp_all [nodeCursor, titleMatches, pyStrip, specNodeToken]
      | arr xs => simp_all [nodeCursor, titleMatches, pyStrip, specNodeToken]
      | obj o => simp_all [nodeCursor, titleMatches, pyStrip, specNodeToken]
      | str raw =>
        cases hb : (!(strTrim raw == "") &&
            strContainsSub (strLower (strTrim raw)) "now on doordash") with
        | false =>
          have hnone : nodeCursor kvs = .ok none := by
            simp [nodeCursor, titleMatches, htext, htitle, pyStrip, hb]
          rw [hnone] at h
          injection h with h
          rw [← h]
          simp [specNodeToken, htext, htitle, hb]
        | true =>
          cases hev : objLookup "events" kvs with
          | none =>
            have hnone : nodeCursor kvs = .ok none := by
              simp [nodeCursor, titleMatches, htext, htitle, pyStrip, hb, hev]
            rw [hnone] at h
            injection h with h
            rw [← h]
            simp [specNodeToken, htext, htitle, hb, hev]
          | some ev =>
            have h2 : clickUriCursor ev = .ok t := by
              rw [← h]
              simp [nodeCursor, titleMatches, htext, htitle, pyStrip, hb, hev]
            rw [clickUriCursor_spec ev t h2]
            simp [specNodeToken, htext, htitle, hb, hev]

/-- `firstTok` over an appended node list. -/
theorem firstTok_append (l₁ l₂ : List JsonObj) :
    firstTok (l₁ ++ l₂) = (match firstTok l₁ with
                           | some t => some t
                           | none => firstTok l₂) := by
  induction l₁ with
  | nil => simp [firstTok]
  | cons n ns ih =>
    simp only [List.cons_append, firstTok]
    cases specNodeToken n <;> simp [ih]

/-- A produced first token comes from some listed node. -/
theorem firstTok_mem : ∀ (l : List JsonObj) (t : String),
    firstTok l = some t → ∃ n ∈ l, specNodeToken n = some t := by
  intro l
  induction l with
  | nil => intro t h; exact Option.noConfusion h
  | cons n ns ih =>
    intro t h
    rw [firstTok] at h
    cases hn : specNodeToken n with
    | some t2 =>
      rw [hn] at h
      injection h with h
      exact ⟨n, by simp, by rw [hn, h]⟩
    | none =>
      rw [hn] at h
      rcases ih t h with ⟨m, hm, hs⟩
      exact ⟨m, by simp [hm], hs⟩

mutual

/-- The search agrees with the first token along the depth-first node
list, on any document where it runs without raising and no node matches
with an empty token. -/
theorem search_dfs : ∀ (j : Json) (r : Option String),
    search_for_now_on_doordash j = .ok r →
    (∀ n ∈ dfsNodes j, ¬(specNodeToken n = some "")) →
    r = firstTok (dfsNodes j)
  | .obj kvs, r, h, hnet => by
    rw [search_for_now_on_doordash] at h
    rw [dfsNodes]
    cases hn : nodeCursor kvs with
    | error e => rw [hn] at h; exact Except.noConfusion h
    | ok c =>
      rw [hn] at h
      cases c with
      | some ctok =>
        simp only [Except.ok.injEq] at h
        have hspec := nodeCursor_spec kvs (some ctok) hn
        rw [firstTok, ← hspec]
        exact h.symm
      | none =>
        have hspec := nodeCursor_spec kvs none hn
        rw [firstTok, ← hspec]
        exact searchFields_dfs kvs r h
          (fun n hm => hnet n (List.mem_cons_of_mem _ hm))
  | .arr xs, r, h, hnet => by
    rw [search_for_now_on_doordash] at h
    rw [dfsNodes]
    exact searchElems_dfs xs r h hnet
  | .str s, r, h, _ => by
    rw [search_for_now_on_doordash] at h
    simp only [Except.ok.injEq] at h
    rw [← h]; rfl
  | .num n, r, h, _ => by
    rw [search_for_now_on_doordash] at h
    simp only [Except.ok.injEq] at h
    rw [← h]; rfl
  | .bool b, r, h, _ => by
    rw [search_for_now_on_doordash] at h
    simp only [Except.ok.injEq] at h
    rw [← h]; rfl
  | .null, r, h, _ => by
    rw [search_for_now_on_doordash] at h
    simp only [Except.ok.injEq] at h
    rw [← h]; rfl

theorem searchFields_dfs : ∀ (kvs : JsonObj) (r : Option String),
    searchFields kvs = .ok r →
    (∀ n ∈ dfsNodesFields kvs, ¬(specNodeToken n = some "")) →
    r = firstTok (dfsNodesFields kvs)
  | .nil, r, h, _ => by
    rw [searchFields] at h
    simp only [Except.ok.injEq] at h
    rw [← h]; rfl
  | .cons k v tl, r, h, hnet => by
    rw [searchFields] at h
    rw [dfsNodesFields, firstTok_append]
    by_cases hc : isContainer v = true
    · rw [if_pos hc] at h
      cases hv : search_for_now_on_doordash v with
      | error e => rw [hv] at h; exact Except.noConfusion h
      | ok rv =>
        rw [hv] at h
        have hrv := search_dfs v rv hv
          (fun n hm => hnet n (List.mem_append_left _ hm))
        cases rv with
        | none =>
          simp only [truthyOptStr, Bool.false_eq_true, if_false] at h
          rw [← hrv]
          exact searchFields_dfs tl r h
            (fun n hm => hnet n (List.mem_append_right _ hm))
        | some s =>
          by_cases hse : s = ""
          · subst hse
            rcases firstTok_mem (dfsNodes v) "" hrv.symm with ⟨n, hn1, hn2⟩
            exact absurd hn2 (hnet n (List.mem_append_left _ hn1))
          · have ht : truthyOptStr (some s) = true := by
              simp [truthyOptStr, hse]
            simp only [ht, if_true, Except.ok.injEq] at h
            rw [← h, ← hrv]
    · rw [if_neg hc] at h
      have hleaf : dfsNodes v = [] := by
        cases v <;> simp_all [isContainer, dfsNodes]
      rw [hleaf]
      exact searchFields_dfs tl r h
        (fun n hm => hnet n (List.mem_append_right _ hm))

theorem searchElems_dfs : ∀ (xs : JsonList) (r : Option String),
    searchElems xs = .ok r →
    (∀ n ∈ dfsNodesElems xs, ¬(specNodeToken n = some "")) →
    r = firstTok (dfsNodesElems xs)
  | .nil, r, h, _ => by
    rw [searchElems] at h
    simp only [Except.ok.injEq] at h
    rw [← h]; rfl
  | .cons hd tl, r, h, hnet => by
    rw [searchElems] at h
    rw [dfsNodesElems, firstTok_append]
    cases hv : search_for_now_on_doordash hd with
    | error e => rw [hv] at h; exact Except.noConfusion h
    | ok rv =>
      rw [hv] at h
      have hrv := search_dfs hd rv hv
        (fun n hm => hnet n (List.mem_append_left _ hm))
      cases rv with
      | none =>
        simp only [truthyOptStr, Bool.false_eq_true, if_false] at h
        rw [← hrv]
        exact searchElems_dfs tl r h
          (fun n hm => hnet n (List.mem_append_right _ hm))
      | some s =>
        by_cases hse : s = ""
        · subst hse
          rcases firstTok_mem (dfsNodes hd) "" hrv.symm with ⟨n, hn1, hn2⟩
          exact absurd hn2 (hnet n (List.mem_append_left _ hn1))
        · have ht : truthyOptStr (some s) = true := by
            simp [truthyOptStr, hse]
          simp only [ht, if_true, Except.ok.injEq] at h
          rw [← h, ← hrv]

end

/-- C1 counterexample: on the document `{"text": {"title": 5}}` the
search raises (Python `.strip()` on an int), so `findToken` does not
"never raise" — nor return a token or NotFound. -/
theorem C1_counterexample :
    find_now_on_doordash_cursor docRaisingTitle = .error () := by rfl

/-- C1 (amended): on every document where the search completes without
raising and no node's matched uri strips to the empty token, `findToken`
returns exactly the token of the first matching mapping node in
depth-first document order — and `none` when no node matches. -/
theorem C1_findToken_dfs_first :
    ∀ (d : Json) (r : Option String),
      find_now_on_doordash_cursor d = .ok r →
      (∀ n ∈ dfsNodes d, ¬(specNodeToken n = some "")) →
      r = firstTok (dfsNodes d) := by
  intro d r h hnet
  unfold find_now_on_doordash_cursor at h
  cases hs : search_for_now_on_doordash d with
  | error e => rw [hs] at h; exact Except.noConfusion h
  | ok c =>
    rw [hs] at h
    have hc := search_dfs d c hs hnet
    cases c with
    | none =>
      simp only [truthyOptStr, Bool.false_eq_true, if_false, Except.ok.injEq] at h
      rw [← h]
      exact hc
    | some s =>
      by_cases hse : s = ""
      · subst hse
        rcases firstTok_mem _ "" hc.symm with ⟨n, hn1, hn2⟩
        exact absurd hn2 (hnet n hn1)
      · have ht : truthyOptStr (some s) = true := by simp [truthyOptStr, hse]
        simp only [ht, if_true, Except.ok.injEq] at h
        rw [← h]
        exact hc

/-- C1 witness: Scenario B — the nested, case-insensitively matched node
is the first match in depth-first order, and the theorem's hypotheses
hold there. -/
theorem C1_witness :
    (some "XYZ" : Option String) = firstTok (dfsNodes docScenarioB) :=
  C1_findToken_dfs_first docScenarioB (some "XYZ") rfl (by decide)

/-! ## Claim C7: the flow's user-visible outcomes -/

/-- A section feed body that extracts to zero store records. -/
def zeroStoreFeed : Json := jobj [("x", .num 1)]

/-- Responses for a run in which every step succeeds, the section cursor
is found, and the fetched section genuinely contains no records. -/
def C7resp : NowOnDoordash.FlowResponses :=
  { health := some ⟨200, .null⟩,
    guest := some ⟨200, jobj [("auth_token", jobj [("token", .str "T")])]⟩,
    addresses := some ⟨200, .null⟩,
    autocomplete := some ⟨200, jarr [jobj [("google_place_id", .str "P1")]]⟩,
    details := some ⟨200, jobj [("lat", .num 40), ("lng", .num (-74))]⟩,
    validate := some ⟨200, .null⟩,
    addAddress := some ⟨200, jobj [("id", .str "A1")]⟩,
    setDefault := some ⟨200, .null⟩,
    homepage := some ⟨200, docScenarioA⟩,
    sectionFeed := some ⟨200, zeroStoreFeed⟩,
    generalFeed := none }

set_option maxRecDepth 8000 in
/-- C7 counterexample: a successful fetch whose extraction yields zero
records makes the flow return the `None`-with-diagnostic failure outcome,
not an empty list. -/
theorem C7_counterexample :
    extract_stores_from_feed zeroStoreFeed "Now on DoorDash" = .ok [] ∧
    NowOnDoordash.run_optimized_flow C7resp =
      .ok (["step_1_health_check", "step_2_create_guest", "step_8_get_addresses",
            "step_9_address_autocomplete", "step_10_address_details",
            "step_11_validate_address", "step_12_add_address",
            "step_13_set_default_address", "step_14_homepage_feed",
            "step_15_content_feed"],
           .failure "No stores found in Now on DoorDash feed") := ⟨rfl, rfl⟩

/-- C7 (amended): when the flow terminates normally its outcome is one of
exactly TWO shapes — a non-empty record list, or the `None` failure
return (tagged with the diagnostic printed at that site); an extraction
that succeeds with zero records lands in the failure shape, and there is
no empty-list outcome. -/
theorem C7_flow_outcomes :
    ∀ (resp : NowOnDoordash.FlowResponses) (tr : List String)
      (out : NowOnDoordash.FlowOutcome),
      NowOnDoordash.run_optimized_flow resp = .ok (tr, out) →
      (∃ l, out = .success l ∧ ¬(l = [])) ∨ (∃ m, out = .failure m) := by
  intro resp tr out h
  unfold NowOnDoordash.run_optimized_flow at h
  repeat' split at h
  all_goals
    first
    | exact Except.noConfusion h
    | (simp only [Except.ok.injEq, Prod.mk.injEq] at h
       obtain ⟨h1, h2⟩ := h
       subst h2
       first
       | exact Or.inr ⟨_, rfl⟩
       | (rename_i hne
          refine Or.inl ⟨_, rfl, ?_⟩
          intro hcon
          subst hcon
          simp at hne))

set_option maxRecDepth 8000 in
/-- C7 witness: the theorem applied at the zero-record run. -/
theorem C7_witness :
    (∃ l, NowOnDoordash.FlowOutcome.failure "No stores found in Now on DoorDash feed" =
        .success l ∧ ¬(l = [])) ∨
    (∃ m, NowOnDoordash.FlowOutcome.failure "No stores found in Now on DoorDash feed" =
        .failure m) :=
  C7_flow_outcomes C7resp
    ["step_1_health_check", "step_2_create_guest", "step_8_get_addresses",
     "step_9_address_autocomplete", "step_10_address_details",
     "step_11_validate_address", "step_12_add_address",
     "step_13_set_default_address", "step_14_homepage_feed",
     "step_15_content_feed"]
    (.failure "No stores found in Now on DoorDash feed") rfl
